import Mathlib

/-!
Verification of the website_traffic ETL pipeline (`src/etl/`) against its
natural-language specification.

The development shallowly embeds the Python modules `transform.py`,
`extract.py`, `config.py`, `load.py` and `__main__.py`:

* a pandas `DataFrame` is a list of column labels together with a list of
  rows (each row a list of cell values);
* cell values are strings, rationals (the numeric dtype), parsed datetimes,
  or null (`None` / `NaN` / `NaT`);
* functions that raise Python exceptions return `Except`;
* the run timestamp (`datetime.now`) is passed as an explicit argument;
* a function that mutates its argument in place (as `transform` does with
  `df.columns = df.columns.str.lower()`) returns the post-call state of the
  caller's object alongside its result.

`pd.to_datetime(..., dayfirst=True)` is modelled on the value forms the
source data actually carries: strings in the documented `dd/mm/YY HH:MM`
shape and already-parsed datetime cells.
-/

namespace ETL

/-- A calendar timestamp, as produced by `pd.to_datetime` / `datetime.now`. -/
structure DateTime where
  year : Nat
  month : Nat
  day : Nat
  hour : Nat
  minute : Nat
  second : Nat
deriving DecidableEq, Repr

/-- A cell value of a pandas DataFrame: string, numeric, datetime, or
null (`None` / `NaN` / `NaT`). -/
inductive Value where
  | str (s : String)
  | num (q : ℚ)
  | dt (t : DateTime)
  | null
deriving DecidableEq, Repr

/-- `pd.isna` on a single cell. -/
def Value.isNull : Value → Bool
  | .null => true
  | _ => false

/-- Whether a cell holds a numeric value. -/
def Value.isNum : Value → Bool
  | .num _ => true
  | _ => false

/-- A pandas DataFrame: ordered column labels and rows of cells, each row
aligned positionally with the labels. -/
structure DataFrame where
  columns : List String
  rows : List (List Value)
deriving DecidableEq, Repr

/-- Column access `df[name]`: the list of cells under the (first) column
with the given label. -/
def DataFrame.col (df : DataFrame) (name : String) : List Value :=
  match df.columns.indexOf? name with
  | some i => df.rows.map fun r => r.getD i Value.null
  | none => []

/-- Column assignment `df[name] = vals` (`vals` aligned with the rows):
overwrites an existing column in place in the row lists, or appends a new
column at the end, as pandas does. -/
def DataFrame.setCol (df : DataFrame) (name : String) (vals : List Value) : DataFrame :=
  match df.columns.indexOf? name with
  | some i => { df with rows := (df.rows.zip vals).map fun p => p.1.set i p.2 }
  | none =>
      { columns := df.columns ++ [name],
        rows := (df.rows.zip vals).map fun p => p.1 ++ [p.2] }

/-- Column projection `df[[n1, n2, ...]]`: keeps exactly the named columns,
in the given order. -/
def DataFrame.select (df : DataFrame) (names : List String) : DataFrame :=
  { columns := names,
    rows := df.rows.map fun r => names.map fun n =>
      match df.columns.indexOf? n with
      | some i => r.getD i Value.null
      | none => Value.null }

/-! ## String primitives

Kernel-computable counterparts of the string operations the Python code
uses (`str.lower`, splitting on a separator character, `int` parsing,
joining with a separator). -/

/-- ASCII `str.lower` on one character. -/
def lowerChar (c : Char) : Char :=
  if 65 ≤ c.toNat ∧ c.toNat ≤ 90 then Char.ofNat (c.toNat + 32) else c

/-- ASCII `str.lower`. -/
def lowerStr (s : String) : String :=
  String.mk (s.data.map lowerChar)

/-- Split a character list on a separator character; like Python
`str.split(sep)`, adjacent separators yield empty pieces. -/
def splitOnChar (sep : Char) : List Char → List (List Char)
  | [] => [[]]
  | c :: cs =>
    let rest := splitOnChar sep cs
    if c = sep then [] :: rest
    else
      match rest with
      | [] => [[c]]
      | w :: ws => (c :: w) :: ws

/-- Split a string on a separator character. -/
def strSplit (sep : Char) (s : String) : List String :=
  (splitOnChar sep s.data).map String.mk

/-- The numeric value of an ASCII digit character. -/
def charDigit? (c : Char) : Option Nat :=
  if 48 ≤ c.toNat ∧ c.toNat ≤ 57 then some (c.toNat - 48) else none

/-- Parse a nonempty all-digit string as a natural number (how the date
fields of `dd/mm/YY HH:MM` are read). -/
def strToNat? (s : String) : Option Nat :=
  if s.data = [] then none
  else
    s.data.foldl
      (fun acc c =>
        match acc, charDigit? c with
        | some n, some d => some (n * 10 + d)
        | _, _ => none)
      (some 0)

/-- Join strings with a separator (`sep.join(...)` / `String.intercalate`). -/
def joinSep (sep : String) : List String → String
  | [] => ""
  | [x] => x
  | x :: y :: xs => x ++ sep ++ joinSep sep (y :: xs)

/-- The ASCII digit character for a value below ten. -/
def digitChar (n : Nat) : Char := Char.ofNat (48 + n)

/-- Decimal digits of a natural number, fuelled so the recursion is
structural. -/
def natToStrAux : Nat → Nat → List Char
  | 0, _ => []
  | fuel + 1, n =>
      if n < 10 then [digitChar n]
      else natToStrAux fuel (n / 10) ++ [digitChar (n % 10)]

/-- Decimal rendering of a natural number. -/
def natToStr (n : Nat) : String := String.mk (natToStrAux (n + 1) n)

/-- Decimal rendering of an integer. -/
def intToStr (i : Int) : String :=
  match i with
  | .ofNat n => natToStr n
  | .negSucc n => "-" ++ natToStr (n + 1)

/-- Plain-text rendering of a rational cell value (integers without a
denominator, other rationals as `num/den`). -/
def ratToStr (q : ℚ) : String :=
  if q.den = 1 then intToStr q.num else intToStr q.num ++ "/" ++ natToStr q.den

/-! ## Date parsing and formatting (`pd.to_datetime(..., dayfirst=True)`,
`.dt.strftime("%Y-%m-%d %H:%M:%S")`) -/

/-- Days in a month, with the Gregorian leap-year rule. -/
def daysInMonth (y m : Nat) : Nat :=
  if m = 2 then
    if y % 4 = 0 ∧ (y % 100 ≠ 0 ∨ y % 400 = 0) then 29 else 28
  else if m = 4 ∨ m = 6 ∨ m = 9 ∨ m = 11 then 30
  else 31

/-- Model of `pd.to_datetime(s, dayfirst=True)` on the source's
`dd/mm/YY HH:MM` strings: the first date field is the day, the second the
month; a two-digit year `yy ≤ 68` means `20yy`, otherwise `19yy`. -/
def parseDayFirst (s : String) : Option DateTime :=
  match strSplit ' ' s with
  | [datePart, timePart] =>
    match strSplit '/' datePart, strSplit ':' timePart with
    | [ds, ms, ys], [hs, mis] =>
      match strToNat? ds, strToNat? ms, strToNat? ys, strToNat? hs, strToNat? mis with
      | some d, some m, some y2, some h, some mi =>
        let y := if ys.data.length = 2 then (if y2 ≤ 68 then 2000 + y2 else 1900 + y2) else y2
        if 1 ≤ m ∧ m ≤ 12 ∧ 1 ≤ d ∧ d ≤ daysInMonth y m ∧ h ≤ 23 ∧ mi ≤ 59 then
          some ⟨y, m, d, h, mi, 0⟩
        else none
      | _, _, _, _, _ => none
    | _, _ => none
  | _ => none

/-- Zero-padded two-digit decimal rendering (`%m`, `%d`, `%H`, `%M`, `%S`). -/
def pad2 (n : Nat) : String :=
  if n < 100 then String.mk [Char.ofNat (48 + n / 10), Char.ofNat (48 + n % 10)]
  else toString n

/-- Zero-padded four-digit decimal rendering (`%Y`). -/
def pad4 (n : Nat) : String :=
  if n < 10000 then
    String.mk [Char.ofNat (48 + n / 1000), Char.ofNat (48 + n / 100 % 10),
               Char.ofNat (48 + n / 10 % 10), Char.ofNat (48 + n % 10)]
  else toString n

/-- `strftime("%Y-%m-%d %H:%M:%S")`. -/
def DateTime.strftimeISO (t : DateTime) : String :=
  pad4 t.year ++ "-" ++ pad2 t.month ++ "-" ++ pad2 t.day ++ " " ++
    pad2 t.hour ++ ":" ++ pad2 t.minute ++ ":" ++ pad2 t.second

/-- Whether a string has the exact shape `YYYY-MM-DD HH:MM:SS` (19
characters, digits in the date/time positions, the literal separators
between them). -/
def isTimestampShaped (s : String) : Bool :=
  match s.toList with
  | [y1, y2, y3, y4, c1, m1, m2, c2, d1, d2, c3, h1, h2, c4, n1, n2, c5, s1, s2] =>
      c1 = '-' && c2 = '-' && c3 = ' ' && c4 = ':' && c5 = ':' &&
      ([y1, y2, y3, y4, m1, m2, d1, d2, h1, h2, n1, n2, s1, s2].all fun c => (charDigit? c).isSome)
  | _ => false

/-! ## `transform.py` -/

/-- The exception type of `transform.py` (`TransformationError`), one
constructor per raise site. -/
inductive TransformationError where
  /-- `pd.to_datetime` itself raised (unparseable string, or `df["time"]`
  raised `KeyError`); caught and re-raised as
  "Failed to parse time column". -/
  | timeParseException
  /-- "Failed to parse {n} time values": `n` cells came back `NaT`. -/
  | timeNulls (n : Nat)
  /-- "Missing required columns after transform: {missing}". -/
  | missingColumns (missing : List String)
  /-- "Found {n} null values in '{col}' column". -/
  | nullValues (col : String) (n : Nat)
  /-- "Traffic column must contain numeric values". -/
  | nonNumericTraffic
deriving DecidableEq, Repr

/-- `pd.to_datetime(value, dayfirst=True)` applied to one cell: datetimes
pass through, strings are parsed day-first, nulls stay `NaT`. -/
def toDatetimeValue (v : Value) : Value :=
  match v with
  | .dt t => .dt t
  | .str s =>
      match parseDayFirst s with
      | some t => .dt t
      | none => .null
  | _ => .null

/-- `parse_time_column(df)`: copies the input (`df = df.copy()`), converts
the `time` column with `pd.to_datetime(..., dayfirst=True)` (an exception
there is wrapped as `TransformationError`), fails if any value came back
`NaT`, then renders the column with `strftime("%Y-%m-%d %H:%M:%S")`. -/
def parse_time_column (df : DataFrame) : Except TransformationError DataFrame :=
  if "time" ∈ df.columns then
    let col := df.col "time"
    -- pd.to_datetime raises (errors="raise") on an unparseable string
    if col.any (fun v => match v with | .str s => (parseDayFirst s).isNone | _ => false) then
      .error .timeParseException
    else
      let parsed := col.map toDatetimeValue
      let nullCount := (parsed.filter Value.isNull).length
      if nullCount > 0 then
        .error (.timeNulls nullCount)
      else
        .ok ((df.setCol "time" parsed).setCol "time"
          (parsed.map fun v => match v with | .dt t => .str t.strftimeISO | v' => v'))
  else
    -- df["time"] raises KeyError, caught by the same `except Exception`
    .error .timeParseException

/-- `add_created_at(df)`: copies the input and assigns one formatted
timestamp — `datetime.now(timezone.utc)`, passed here explicitly as
`now` — to every record's `created_at` field. -/
def add_created_at (now : DateTime) (df : DataFrame) : DataFrame :=
  df.setCol "created_at" (df.rows.map fun _ => Value.str now.strftimeISO)

/-- The columns `validate_data` requires (`{"time", "traffic", "created_at"}`). -/
def requiredColumns : List String := ["time", "traffic", "created_at"]

/-- Whether a column's dtype is numeric
(`pd.api.types.is_numeric_dtype`): every cell is a number or a numeric
null (`NaN`). -/
def isNumericCol (vs : List Value) : Bool :=
  vs.all fun v => v.isNum || v.isNull

/-- `validate_data(df)`: fails when a required column is absent, when
`time` or `traffic` holds a null, or when `traffic` is not numeric;
otherwise returns the input unchanged. Negative traffic only logs a
warning (see `negativeTrafficWarned`). -/
def validate_data (df : DataFrame) : Except TransformationError DataFrame :=
  let missing := requiredColumns.filter fun c => c ∉ df.columns
  if missing ≠ [] then
    .error (.missingColumns missing)
  else
    let timeNulls := ((df.col "time").filter Value.isNull).length
    if timeNulls > 0 then
      .error (.nullValues "time" timeNulls)
    else
      let trafficNulls := ((df.col "traffic").filter Value.isNull).length
      if trafficNulls > 0 then
        .error (.nullValues "traffic" trafficNulls)
      else if ¬ isNumericCol (df.col "traffic") then
        .error .nonNumericTraffic
      else
        .ok df

/-- The warning-only check of `validate_data`:
`(df["traffic"] < 0).any()`. -/
def negativeTrafficWarned (df : DataFrame) : Bool :=
  (df.col "traffic").any fun v => match v with | .num q => q < 0 | _ => false

/-- `transform(df)`: lowercases the column labels **in place on the
caller's DataFrame** (`df.columns = df.columns.str.lower()`), then chains
`parse_time_column`, `add_created_at`, `validate_data`, and projects to
`[time, traffic, created_at]`. The first component of the result is the
state of the caller's argument after the call; the second is the returned
value or the raised exception. -/
def transform (now : DateTime) (df : DataFrame) :
    DataFrame × Except TransformationError DataFrame :=
  let dfLower : DataFrame := { df with columns := df.columns.map lowerStr }
  (dfLower,
    do
      let df1 ← parse_time_column dfLower
      let df2 := add_created_at now df1
      let df3 ← validate_data df2
      pure (df3.select ["time", "traffic", "created_at"]))

/-- `to_csv(path, index=False, header=True)`: the serialized text, a
comma-separated header line followed by one comma-separated line per row. -/
def csvCell (v : Value) : String :=
  match v with
  | .str s => s
  | .num q => ratToStr q
  | .dt t => t.strftimeISO
  | .null => ""

/-- The full CSV text written by `df.to_csv`. -/
def toCsvString (df : DataFrame) : String :=
  joinSep "," df.columns ++ "\n" ++
    joinSep "\n" (df.rows.map fun r => joinSep "," (r.map csvCell))

/-- The observable filesystem effect of `save_to_csv`. -/
structure CsvOutput where
  /-- The directory created with `mkdir(parents=True, exist_ok=True)`. -/
  dirCreated : List String
  /-- The path of the written file (directory components then filename). -/
  path : List String
  /-- The text written to that file. -/
  content : String
deriving DecidableEq, Repr

set_option linter.unusedVariables false in
/-- `save_to_csv(df, output_dir, timestamp)`: creates the output
directory, writes the CSV with a header row, and returns the output path.
The filename the code builds is the constant `"traffic_data.csv"` — the
`timestamp` argument is never used. -/
def save_to_csv (df : DataFrame) (output_dir : List String) (timestamp : String) : CsvOutput :=
  let filename := "traffic_data.csv"
  { dirCreated := output_dir,
    path := output_dir ++ [filename],
    content := toCsvString df }

/-! ## `extract.py` -/

/-- The exception type of `extract.py` (`ExtractionError`). -/
inductive ExtractionError where
  /-- "Missing required columns: {missing}". -/
  | missingColumns (missing : List String)
  /-- "XLS file contains no data rows". -/
  | noDataRows
deriving DecidableEq, Repr

/-- The columns `extract_from_xls` requires
(`expected_columns = {"time", "traffic"}`). -/
def expectedColumns : List String := ["time", "traffic"]

/-- The validation part of `extract_from_xls(file_path)`, applied to the
DataFrame decoded from a readable source (`pd.read_excel` succeeded):
fails when `time` or `traffic` is missing under case-insensitive matching
or when there are zero data rows, and otherwise returns the decoded batch
as-is, every column included. -/
def extract_from_xls (df : DataFrame) : Except ExtractionError DataFrame :=
  let actual := df.columns.map lowerStr
  let missing := expectedColumns.filter fun c => c ∉ actual
  if missing ≠ [] then
    .error (.missingColumns missing)
  else if df.rows.length = 0 then
    .error .noDataRows
  else
    .ok df

/-! ## `config.py` -/

/-- The frozen `Config` dataclass: one field per environment variable
(paths kept as strings). -/
structure Config where
  gcp_project : String
  gcs_bucket : String
  bq_dataset : String
  bq_table : String
  local_xls_path : String
  google_credentials_path : String
  write_disposition : String
deriving DecidableEq, Repr

/-- The `bq_table_id` property: `"{project}.{dataset}.{table}"`. -/
def Config.bq_table_id (c : Config) : String :=
  c.gcp_project ++ "." ++ c.bq_dataset ++ "." ++ c.bq_table

/-- Python attribute lookup on a `Config` instance: the dataclass fields
and the one `@property`, and nothing else — any other name raises
`AttributeError`, modelled as `none`. -/
def Config.getattr (c : Config) (name : String) : Option String :=
  if name = "gcp_project" then some c.gcp_project
  else if name = "gcs_bucket" then some c.gcs_bucket
  else if name = "bq_dataset" then some c.bq_dataset
  else if name = "bq_table" then some c.bq_table
  else if name = "local_xls_path" then some c.local_xls_path
  else if name = "google_credentials_path" then some c.google_credentials_path
  else if name = "write_disposition" then some c.write_disposition
  else if name = "bq_table_id" then some c.bq_table_id
  else none

/-- The exception type of `config.py` (`ConfigError`), one constructor per
raise site of `load_config`. -/
inductive ConfigError where
  /-- "Missing required environment variables:" followed by every missing
  variable name, collected into one message. -/
  | missingEnv (vars : List String)
  /-- "XLS file not found". -/
  | xlsNotFound (path : String)
  /-- "Google credentials file not found". -/
  | credsNotFound (path : String)
  /-- "Invalid BQ_WRITE_DISPOSITION". -/
  | badWriteDisposition (value : String)
deriving DecidableEq, Repr

/-- The `required_vars` list of `load_config`. -/
def required_vars : List String :=
  ["GCP_PROJECT", "GCS_BUCKET", "BQ_DATASET", "BQ_TABLE",
   "LOCAL_XLS_PATH", "GOOGLE_APPLICATION_CREDENTIALS"]

/-- `os.getenv(var)` with Python truthiness: an unset variable and an
empty string both count as missing (`if not value`). -/
def envMissing (env : String → Option String) (var : String) : Bool :=
  match env var with
  | none => true
  | some s => s = ""

/-- The accumulation loop of `load_config`: every required variable that
is unset or empty, in `required_vars` order. -/
def missingRequiredVars (env : String → Option String) : List String :=
  required_vars.filter (envMissing env)

/-- `load_config()`, with the process environment and the filesystem's
`Path.exists` passed as oracles: collects all missing required variables
and reports them together in one `ConfigError`; then checks the two paths
exist; then validates the optional write disposition; and finally builds
the `Config`. -/
def load_config (env : String → Option String) (pathExists : String → Bool) :
    Except ConfigError Config :=
  let missing := missingRequiredVars env
  if missing ≠ [] then
    .error (.missingEnv missing)
  else
    let get := fun v => (env v).getD ""
    let xls := get "LOCAL_XLS_PATH"
    if ¬ pathExists xls then
      .error (.xlsNotFound xls)
    else
      let creds := get "GOOGLE_APPLICATION_CREDENTIALS"
      if ¬ pathExists creds then
        .error (.credsNotFound creds)
      else
        let wd := lowerStr ((env "BQ_WRITE_DISPOSITION").getD "append")
        if wd ≠ "append" ∧ wd ≠ "truncate" then
          .error (.badWriteDisposition wd)
        else
          .ok { gcp_project := get "GCP_PROJECT",
                gcs_bucket := get "GCS_BUCKET",
                bq_dataset := get "BQ_DATASET",
                bq_table := get "BQ_TABLE",
                local_xls_path := xls,
                google_credentials_path := creds,
                write_disposition := wd }

/-! ## `load.py` -/

/-- The exception type of `load.py` (`LoadError`), restricted to the raise
sites of `load_to_bigquery`. -/
inductive LoadError where
  /-- "Failed to create BigQuery client: ..." — wraps any exception thrown
  while evaluating `bigquery.Client(project=config.PROJECT_ID)`. -/
  | clientCreationFailed
  /-- "BigQuery dataset not found". -/
  | datasetNotFound (dataset : String)
  /-- "BigQuery resource not found". -/
  | resourceNotFound
  /-- "Permission denied accessing BigQuery". -/
  | permissionDenied
  /-- "Schema mismatch loading to BigQuery". -/
  | schemaMismatch
  /-- "Failed to load data into BigQuery". -/
  | loadFailed
deriving DecidableEq, Repr

/-- The possible outcomes of the remote BigQuery load job
(`load_table_from_uri(...).result()`), abstracted. -/
inductive BqJobOutcome where
  | success (outputRows : Nat)
  | notFoundDataset
  | notFoundOther
  | forbidden
  | schemaError
  | otherError
deriving DecidableEq, Repr

/-- `load_to_bigquery(gcs_uri, config)`, with the remote job submission
abstracted as the oracle `runJob` (fed the URI and the destination table
id). The first step evaluates `config.PROJECT_ID` to build the client;
`Config` has no such attribute, so the lookup raises `AttributeError`,
which the surrounding `except Exception` wraps as the client-creation
`LoadError`. Only if that step returned a project would the job be
configured, submitted, and its outcome mapped through the per-exception
handlers. -/
def load_to_bigquery (gcs_uri : String) (config : Config)
    (runJob : String → String → BqJobOutcome) : Except LoadError Nat :=
  match config.getattr "PROJECT_ID" with
  | none => .error .clientCreationFailed
  | some _proj =>
      match runJob gcs_uri config.bq_table_id with
      | .success n => .ok n
      | .notFoundDataset => .error (.datasetNotFound config.bq_dataset)
      | .notFoundOther => .error .resourceNotFound
      | .forbidden => .error .permissionDenied
      | .schemaError => .error .schemaMismatch
      | .otherError => .error .loadFailed

/-! ## `__main__.py` -/

/-- The kinds of exception that can cross a stage boundary in `run_etl`:
the four stage-specific classes, and anything else (`otherError` stands
for every exception none of the `except` clauses names). -/
inductive ExcKind where
  | configError
  | extractionError
  | transformationError
  | loadError
  | otherError
deriving DecidableEq, Repr

/-- `EXIT_SUCCESS = 0`. -/
def EXIT_SUCCESS : Nat := 0

/-- `EXIT_CONFIG_ERROR = 1`. -/
def EXIT_CONFIG_ERROR : Nat := 1

/-- `EXIT_EXTRACTION_ERROR = 2`. -/
def EXIT_EXTRACTION_ERROR : Nat := 2

/-- `EXIT_TRANSFORM_ERROR = 3`. -/
def EXIT_TRANSFORM_ERROR : Nat := 3

/-- `EXIT_LOAD_ERROR = 4`. -/
def EXIT_LOAD_ERROR : Nat := 4

/-- `EXIT_UNKNOWN_ERROR = 99`. -/
def EXIT_UNKNOWN_ERROR : Nat := 99

/-- `run_etl(...)`, with each phase's body abstracted as an `Except`
computation classified by `ExcKind`. Each phase sits in its own
`try`/`except` that catches exactly its stage's exception class and
returns that stage's exit code; an exception of any other kind is not
caught anywhere in `run_etl` and propagates out (the `.error` result).
A phase's failure returns (or propagates) immediately: later phases are
never consulted. -/
def run_etl (configPhase : Except ExcKind Config)
    (extractPhase : Config → Except ExcKind DataFrame)
    (transformPhase : DataFrame → Except ExcKind DataFrame)
    (loadPhase : DataFrame → Except ExcKind Nat) : Except ExcKind Nat :=
  match configPhase with
  | .error e => if e = .configError then .ok EXIT_CONFIG_ERROR else .error e
  | .ok config =>
    match extractPhase config with
    | .error e => if e = .extractionError then .ok EXIT_EXTRACTION_ERROR else .error e
    | .ok df =>
      match transformPhase df with
      | .error e => if e = .transformationError then .ok EXIT_TRANSFORM_ERROR else .error e
      | .ok df2 =>
        match loadPhase df2 with
        | .error e => if e = .loadError then .ok EXIT_LOAD_ERROR else .error e
        | .ok _rows => .ok EXIT_SUCCESS

/-! ## Concrete fixtures -/

/-- The batch of end-to-end scenario A:
`[{time: "23/05/21 14:30", traffic: 6.5}]`. -/
def scenarioA : DataFrame :=
  ⟨["time", "traffic"], [[.str "23/05/21 14:30", .num 6.5]]⟩

/-- A sample run timestamp, standing in for `datetime.now(timezone.utc)`. -/
def sampleNow : DateTime := ⟨2024, 1, 2, 3, 4, 5⟩

/-! ## Theorems -/

/-- C1: on the one-record batch `[{time: "23/05/21 14:30", traffic: 6.5}]`,
`transform` succeeds for every run timestamp, the ambiguous two-part date
is parsed day-first (23 May 2021, not a month-23 value), and the output
record carries time `"2021-05-23 14:30:00"` (seconds padded to zero) and
traffic `6.5`, plus the run's `created_at` stamp. -/
theorem c1_transform_parses_dayfirst (now : DateTime) :
    (transform now scenarioA).2 =
      .ok ⟨["time", "traffic", "created_at"],
           [[.str "2021-05-23 14:30:00", .num 6.5, .str now.strftimeISO]]⟩ := rfl

/-- C2: whenever `transform` succeeds, the output batch's column list is
exactly `[time, traffic, created_at]` in that order — extra source columns
never leak through. -/
theorem c2_transform_output_columns (now : DateTime) (df df' : DataFrame)
    (h : (transform now df).2 = .ok df') :
    df'.columns = ["time", "traffic", "created_at"] := by
  dsimp only [transform] at h
  cases hp : parse_time_column { df with columns := df.columns.map lowerStr } with
  | error e => rw [hp] at h; simp [Bind.bind, Except.bind] at h
  | ok df1 =>
      rw [hp] at h
      dsimp only [Bind.bind, Except.bind] at h
      cases hv : validate_data (add_created_at now df1) with
      | error e => rw [hv] at h; simp [pure, Except.pure] at h
      | ok df3 =>
          rw [hv] at h
          simp only [pure, Except.pure, Except.ok.injEq] at h
          subst h
          rfl

/-- C2 witness: a batch with an extra column, transformed at the sample
run time, yields exactly the three canonical columns. -/
theorem c2_transform_output_columns_witness :
    (DataFrame.mk ["time", "traffic", "created_at"]
      [[.str "2021-12-01 09:00:00", .num 3, .str "2024-01-02 03:04:05"]]).columns =
      ["time", "traffic", "created_at"] :=
  c2_transform_output_columns sampleNow
    ⟨["Time", "TRAFFIC", "Extra"], [[.str "01/12/21 09:00", .num 3, .str "x"]]⟩ _ rfl

/-- C6: `save_to_csv` creates the target directory, writes the batch as
comma-delimited text whose first line is the header row, and returns the
written file's path — but the filename is the constant
`traffic_data.csv`: the run timestamp passed in is not incorporated
(contrary to the function's own docstring and to the test
`test_saves_csv_with_timestamp`, which expects
`traffic_data_20240101_120000.csv`). Evaluated at the failing input. -/
theorem c6_save_to_csv_ignores_timestamp :
    save_to_csv ⟨["time", "traffic", "created_at"],
        [[.str "2021-05-23 14:30:00", .num 7, .str "2024-01-01 00:00:00"]]⟩
        ["data"] "20240101_120000" =
      { dirCreated := ["data"],
        path := ["data", "traffic_data.csv"],
        content := "time,traffic,created_at\n2021-05-23 14:30:00,7,2024-01-01 00:00:00" } ∧
    "traffic_data.csv" ≠ "traffic_data_20240101_120000.csv" ∧
    "traffic_data.csv".data.all (fun c => !(charDigit? c).isSome) = true := by
  refine ⟨rfl, by decide, by decide⟩

/-- C7: `transform` mutates the batch it receives: the caller's DataFrame
has its column labels lowercased in place by
`df.columns = df.columns.str.lower()`, contrary to the module's stated
immutability principle. Evaluated at a batch with uppercase labels: after
the call the caller's object differs from the original. -/
theorem c7_transform_mutates_caller_columns :
    (transform sampleNow
        ⟨["TIME", "TRAFFIC"], [[.str "23/05/21 14:30", .num 6.5]]⟩).1 =
      ⟨["time", "traffic"], [[.str "23/05/21 14:30", .num 6.5]]⟩ ∧
    (transform sampleNow
        ⟨["TIME", "TRAFFIC"], [[.str "23/05/21 14:30", .num 6.5]]⟩).1 ≠
      ⟨["TIME", "TRAFFIC"], [[.str "23/05/21 14:30", .num 6.5]]⟩ := by
  constructor
  · rfl
  · decide

/-- C10: for every staged-artifact URI, every `Config` value, and every
possible behaviour of the remote load job, `load_to_bigquery` fails with
the client-creation `LoadError` before any job is submitted: it reads
`config.PROJECT_ID`, an attribute the `Config` dataclass does not define
(its field is `gcp_project`), and the `AttributeError` is caught by the
surrounding `except Exception` and wrapped. -/
theorem c10_load_to_bigquery_always_fails (gcs_uri : String) (config : Config)
    (runJob : String → String → BqJobOutcome) :
    load_to_bigquery gcs_uri config runJob = .error .clientCreationFailed := rfl

/-- A validated batch whose traffic values include a negative number. -/
def negativeTrafficBatch : DataFrame :=
  ⟨["time", "traffic", "created_at"],
   [[.str "2021-05-23 14:30:00", .num (-1), .str "2024-01-02 03:04:05"],
    [.str "2021-05-24 10:00:00", .num 2, .str "2024-01-02 03:04:05"]]⟩

/-- The missing-column filter of `validate_data` is empty exactly when the
three required columns are all present. -/
theorem required_filter_eq_nil (df : DataFrame) :
    (requiredColumns.filter fun c => c ∉ df.columns) = [] ↔
      ("time" ∈ df.columns ∧ "traffic" ∈ df.columns ∧ "created_at" ∈ df.columns) := by
  simp [requiredColumns, List.filter_eq_nil_iff]

/-- A column's null filter is empty exactly when no cell is null. -/
theorem nullFilter_eq_nil (l : List Value) :
    (l.filter Value.isNull) = [] ↔ (∀ v ∈ l, v.isNull = false) := by
  simp [List.filter_eq_nil_iff]

/-- C3: `validate_data` is the identity exactly on batches that have all
of `time`, `traffic`, `created_at`, no null `time` or `traffic` value, and
a uniformly numeric `traffic` column; any `ok` it returns is its input;
and a batch meeting those conditions passes even with negative traffic,
which only raises the warning flag. -/
theorem c3_validate_data_characterization :
    (∀ df : DataFrame,
      (validate_data df = .ok df ↔
        (("time" ∈ df.columns ∧ "traffic" ∈ df.columns ∧ "created_at" ∈ df.columns) ∧
         (∀ v ∈ df.col "time", v.isNull = false) ∧
         (∀ v ∈ df.col "traffic", v.isNull = false) ∧
         isNumericCol (df.col "traffic") = true)) ∧
      (∀ r, validate_data df = .ok r → r = df)) ∧
    (validate_data negativeTrafficBatch = .ok negativeTrafficBatch ∧
      negativeTrafficWarned negativeTrafficBatch = true) := by
  refine ⟨fun df => ⟨⟨?_, ?_⟩, ?_⟩, rfl, rfl⟩
  · -- success implies the three conditions
    intro h
    simp only [validate_data] at h
    split_ifs at h with h1 h2 h3 h4
    rw [ne_eq, not_not] at h1
    refine ⟨(required_filter_eq_nil df).mp h1, ?_, ?_, ?_⟩
    · exact (nullFilter_eq_nil _).mp (by
        by_contra hne
        exact h2 (List.length_pos.mpr hne))
    · exact (nullFilter_eq_nil _).mp (by
        by_contra hne
        exact h3 (List.length_pos.mpr hne))
    · exact h4
  · -- the three conditions imply success
    rintro ⟨hcols, hnt, hnf, hnum⟩
    have e1 : (requiredColumns.filter fun c => c ∉ df.columns) = [] :=
      (required_filter_eq_nil df).mpr hcols
    have e2 : ((df.col "time").filter Value.isNull) = [] :=
      (nullFilter_eq_nil _).mpr hnt
    have e3 : ((df.col "traffic").filter Value.isNull) = [] :=
      (nullFilter_eq_nil _).mpr hnf
    simp only [validate_data, e1, e2, e3]
    simp [hnum]
  · -- any successful result is the input itself
    intro r hr
    simp only [validate_data] at hr
    split_ifs at hr
    exact (Except.ok.inj hr).symm

/-- C3 witness: the characterization applied to a concrete batch with a
negative traffic value shows validation passing. -/
theorem c3_validate_data_characterization_witness :
    validate_data negativeTrafficBatch = .ok negativeTrafficBatch :=
  ((c3_validate_data_characterization.1 negativeTrafficBatch).1).mpr
    (by refine ⟨⟨?_, ?_, ?_⟩, ?_, ?_, ?_⟩ <;> decide)

/-- The missing-column filter of `extract_from_xls` is empty exactly when
`time` and `traffic` appear among the lowercased column labels. -/
theorem expected_filter_eq_nil (df : DataFrame) :
    (expectedColumns.filter fun c => c ∉ df.columns.map lowerStr) = [] ↔
      ("time" ∈ df.columns.map lowerStr ∧ "traffic" ∈ df.columns.map lowerStr) := by
  simp [expectedColumns, List.filter_eq_nil_iff]

/-- C4: once the source has been decoded, `extract_from_xls` succeeds and
returns the decoded batch untouched — every column, required or extra —
exactly when `time` and `traffic` are present under case-insensitive
matching and there is at least one data row; otherwise it raises
`ExtractionError` and returns nothing. -/
theorem c4_extract_from_xls_characterization (df : DataFrame) :
    (extract_from_xls df = .ok df ↔
      (("time" ∈ df.columns.map lowerStr ∧ "traffic" ∈ df.columns.map lowerStr) ∧
        df.rows ≠ [])) ∧
    (∀ r, extract_from_xls df = .ok r → r = df) := by
  constructor
  · constructor
    · intro h
      simp only [extract_from_xls] at h
      split_ifs at h with h1 h2
      rw [ne_eq, not_not] at h1
      rw [List.length_eq_zero] at h2
      exact ⟨(expected_filter_eq_nil df).mp h1, h2⟩
    · rintro ⟨hcols, hrows⟩
      have e1 : (expectedColumns.filter fun c => c ∉ df.columns.map lowerStr) = [] :=
        (expected_filter_eq_nil df).mpr hcols
      simp only [extract_from_xls, e1]
      simp [List.length_eq_zero, hrows]
  · intro r hr
    simp only [extract_from_xls] at hr
    split_ifs at hr
    exact (Except.ok.inj hr).symm

/-- C4 witness: the characterization applied to a decoded batch with
mixed-case labels and an extra column shows extraction passing it through
unchanged. -/
theorem c4_extract_from_xls_characterization_witness :
    extract_from_xls
        (DataFrame.mk ["Time", "TRAFFIC", "other"] [[.null, .null, .null]]) =
      .ok (DataFrame.mk ["Time", "TRAFFIC", "other"] [[.null, .null, .null]]) :=
  ((c4_extract_from_xls_characterization
      (DataFrame.mk ["Time", "TRAFFIC", "other"] [[.null, .null, .null]])).1).mpr
    (by refine ⟨⟨?_, ?_⟩, ?_⟩ <;> decide)

/-- A sample configuration value. -/
def cfg0 : Config :=
  { gcp_project := "proj", gcs_bucket := "bucket", bq_dataset := "ds",
    bq_table := "tbl", local_xls_path := "data/traffic.xls",
    google_credentials_path := "keys/sa.json", write_disposition := "append" }

/-- C8 counterexample: an unexpected (non-stage) exception raised during
the extract phase is not mapped to the catch-all code `EXIT_UNKNOWN_ERROR`
(or to any exit code): `run_etl` has no handler for it, so it propagates
out of the run. -/
theorem c8_unexpected_error_not_caught :
    run_etl (.ok cfg0) (fun _ => .error .otherError)
        (fun d => .ok d) (fun _ => .ok 1) = .error .otherError ∧
    (Except.error .otherError : Except ExcKind Nat) ≠ .ok EXIT_UNKNOWN_ERROR := by
  exact ⟨rfl, by simp⟩

/-- C8 (amended): the six exit codes are pairwise distinct; each stage's
own error kind maps to that stage's exit code, with the result independent
of every later phase (no subsequent stage's work is performed); an
all-success run returns `EXIT_SUCCESS`; but an exception of any kind a
stage's `except` clause does not name propagates out of `run_etl`
uncaught instead of being mapped to `EXIT_UNKNOWN_ERROR`, which is
defined and never returned. -/
theorem c8_run_etl_outcomes :
    ([EXIT_SUCCESS, EXIT_CONFIG_ERROR, EXIT_EXTRACTION_ERROR, EXIT_TRANSFORM_ERROR,
      EXIT_LOAD_ERROR, EXIT_UNKNOWN_ERROR].Pairwise (· ≠ ·)) ∧
    (∀ ext tr ld, run_etl (.error .configError) ext tr ld = .ok EXIT_CONFIG_ERROR) ∧
    (∀ cfg ext tr ld, ext cfg = .error .extractionError →
      run_etl (.ok cfg) ext tr ld = .ok EXIT_EXTRACTION_ERROR) ∧
    (∀ cfg df ext tr ld, ext cfg = .ok df → tr df = .error .transformationError →
      run_etl (.ok cfg) ext tr ld = .ok EXIT_TRANSFORM_ERROR) ∧
    (∀ cfg df df2 ext tr ld, ext cfg = .ok df → tr df = .ok df2 →
      ld df2 = .error .loadError →
      run_etl (.ok cfg) ext tr ld = .ok EXIT_LOAD_ERROR) ∧
    (∀ cfg df df2 n ext tr ld, ext cfg = .ok df → tr df = .ok df2 → ld df2 = .ok n →
      run_etl (.ok cfg) ext tr ld = .ok EXIT_SUCCESS) ∧
    (∀ e ext tr ld, e ≠ .configError →
      run_etl (.error e) ext tr ld = .error e) ∧
    (∀ cfg e ext tr ld, ext cfg = .error e → e ≠ .extractionError →
      run_etl (.ok cfg) ext tr ld = .error e) ∧
    (∀ cfg df e ext tr ld, ext cfg = .ok df → tr df = .error e →
      e ≠ .transformationError →
      run_etl (.ok cfg) ext tr ld = .error e) ∧
    (∀ cfg df df2 e ext tr ld, ext cfg = .ok df → tr df = .ok df2 →
      ld df2 = .error e → e ≠ .loadError →
      run_etl (.ok cfg) ext tr ld = .error e) := by
  refine ⟨by decide, fun ext tr ld => rfl, ?_, ?_, ?_, ?_, ?_, ?_, ?_, ?_⟩
  · intro cfg ext tr ld h; simp [run_etl, h]
  · intro cfg df ext tr ld h1 h2; simp [run_etl, h1, h2]
  · intro cfg df df2 ext tr ld h1 h2 h3; simp [run_etl, h1, h2, h3]
  · intro cfg df df2 n ext tr ld h1 h2 h3; simp [run_etl, h1, h2, h3]
  · intro e ext tr ld he; simp [run_etl, he]
  · intro cfg e ext tr ld h he; simp [run_etl, h, he]
  · intro cfg df e ext tr ld h1 h2 he; simp [run_etl, h1, h2, he]
  · intro cfg df df2 e ext tr ld h1 h2 h3 he; simp [run_etl, h1, h2, h3, he]

/-- C8 witness: the amended theorem applied at concrete phase behaviours —
an extract-phase `ExtractionError` yields exit code 2, and an unexpected
extract-phase exception propagates. -/
theorem c8_run_etl_outcomes_witness :
    run_etl (.ok cfg0) (fun _ => .error .extractionError)
        (fun d => .ok d) (fun _ => .ok 5) = .ok EXIT_EXTRACTION_ERROR ∧
    run_etl (.ok cfg0) (fun _ => .ok scenarioA)
        (fun d => .ok d) (fun _ => .error .otherError) = .error .otherError :=
  ⟨c8_run_etl_outcomes.2.2.1 cfg0 _ _ _ rfl,
   c8_run_etl_outcomes.2.2.2.2.2.2.2.2.2 cfg0 scenarioA scenarioA .otherError
     _ _ _ rfl rfl rfl (by simp)⟩

/-- An environment with two required variables missing: `GCP_PROJECT` is
unset and `GCS_BUCKET` is set to the empty string. -/
def envTwoMissing : String → Option String := fun v =>
  if v = "GCP_PROJECT" then none
  else if v = "GCS_BUCKET" then some ""
  else some "value"

/-- C9: whenever at least two required configuration variables are missing,
`load_config` fails with a single `ConfigError` that lists every missing
variable (accumulated, not just the first), and a configuration failure
makes `run_etl` return `EXIT_CONFIG_ERROR` whatever the later phases
would do — no pipeline stage runs. -/
theorem c9_load_config_accumulates (env : String → Option String)
    (pathExists : String → Bool)
    (h : 2 ≤ (missingRequiredVars env).length) :
    load_config env pathExists = .error (.missingEnv (missingRequiredVars env)) ∧
    (∀ ext tr ld, run_etl (.error .configError) ext tr ld = .ok EXIT_CONFIG_ERROR) := by
  have hne : missingRequiredVars env ≠ [] := by
    intro hnil
    rw [hnil] at h
    simp at h
  constructor
  · simp [load_config, hne]
  · intro ext tr ld; rfl

/-- C9 witness: with `GCP_PROJECT` unset and `GCS_BUCKET` empty, the one
configuration error reports both. -/
theorem c9_load_config_accumulates_witness :
    load_config envTwoMissing (fun _ => true) =
      .error (.missingEnv ["GCP_PROJECT", "GCS_BUCKET"]) :=
  (c9_load_config_accumulates envTwoMissing (fun _ => true) (by decide)).1

/-- A padded digit position holds an ASCII digit. -/
theorem charDigit_isSome_ofNat (k : Nat) (h : k ≤ 9) :
    (charDigit? (Char.ofNat (48 + k))).isSome = true := by
  interval_cases k <;> decide

/-- The characters `pad2` produces below the bound. -/
theorem pad2_data (n : Nat) (h : n < 100) :
    (pad2 n).data = [Char.ofNat (48 + n / 10), Char.ofNat (48 + n % 10)] := by
  simp [pad2, h]

/-- The characters `pad4` produces below the bound. -/
theorem pad4_data (n : Nat) (h : n < 10000) :
    (pad4 n).data = [Char.ofNat (48 + n / 1000), Char.ofNat (48 + n / 100 % 10),
      Char.ofNat (48 + n / 10 % 10), Char.ofNat (48 + n % 10)] := by
  simp [pad4, h]

/-- With calendar-sized field values, `strftime("%Y-%m-%d %H:%M:%S")`
output has the exact `YYYY-MM-DD HH:MM:SS` shape. -/
theorem strftimeISO_shaped (t : DateTime) (hy : t.year ≤ 9999) (hm : t.month ≤ 99)
    (hd : t.day ≤ 99) (hh : t.hour ≤ 99) (hmi : t.minute ≤ 99) (hs : t.second ≤ 99) :
    isTimestampShaped t.strftimeISO = true := by
  have e : t.strftimeISO.toList =
      [Char.ofNat (48 + t.year / 1000), Char.ofNat (48 + t.year / 100 % 10),
       Char.ofNat (48 + t.year / 10 % 10), Char.ofNat (48 + t.year % 10), '-',
       Char.ofNat (48 + t.month / 10), Char.ofNat (48 + t.month % 10), '-',
       Char.ofNat (48 + t.day / 10), Char.ofNat (48 + t.day % 10), ' ',
       Char.ofNat (48 + t.hour / 10), Char.ofNat (48 + t.hour % 10), ':',
       Char.ofNat (48 + t.minute / 10), Char.ofNat (48 + t.minute % 10), ':',
       Char.ofNat (48 + t.second / 10), Char.ofNat (48 + t.second % 10)] := by
    show t.strftimeISO.data = _
    unfold DateTime.strftimeISO
    rw [String.data_append, String.data_append, String.data_append,
        String.data_append, String.data_append, String.data_append,
        String.data_append, String.data_append, String.data_append,
        String.data_append,
        pad4_data _ (by omega), pad2_data _ (by omega), pad2_data _ (by omega),
        pad2_data _ (by omega), pad2_data _ (by omega), pad2_data _ (by omega)]
    rfl
  have d1 := charDigit_isSome_ofNat (t.year / 1000) (by omega)
  have d2 := charDigit_isSome_ofNat (t.year / 100 % 10) (by omega)
  have d3 := charDigit_isSome_ofNat (t.year / 10 % 10) (by omega)
  have d4 := charDigit_isSome_ofNat (t.year % 10) (by omega)
  have d5 := charDigit_isSome_ofNat (t.month / 10) (by omega)
  have d6 := charDigit_isSome_ofNat (t.month % 10) (by omega)
  have d7 := charDigit_isSome_ofNat (t.day / 10) (by omega)
  have d8 := charDigit_isSome_ofNat (t.day % 10) (by omega)
  have d9 := charDigit_isSome_ofNat (t.hour / 10) (by omega)
  have d10 := charDigit_isSome_ofNat (t.hour % 10) (by omega)
  have d11 := charDigit_isSome_ofNat (t.minute / 10) (by omega)
  have d12 := charDigit_isSome_ofNat (t.minute % 10) (by omega)
  have d13 := charDigit_isSome_ofNat (t.second / 10) (by omega)
  have d14 := charDigit_isSome_ofNat (t.second % 10) (by omega)
  unfold isTimestampShaped
  rw [e]
  simp [d1, d2, d3, d4, d5, d6, d7, d8, d9, d10, d11, d12, d13, d14]

/-- An index returned by `indexOf?` is in range. -/
theorem indexOf?_lt_length {l : List String} {a : String} {i : Nat}
    (h : l.indexOf? a = some i) : i < l.length := by
  induction l generalizing i with
  | nil => cases h
  | cons b bs ih =>
      rw [List.indexOf?_cons] at h
      by_cases hb : (b == a) = true
      · rw [if_pos hb] at h
        cases h
        simp
      · rw [if_neg hb] at h
        cases h' : bs.indexOf? a with
        | none => rw [h'] at h; cases h
        | some j =>
            rw [h'] at h
            simp only [Option.map_some'] at h
            cases h
            have := ih h'
            simp only [List.length_cons]
            omega

/-- `indexOf?` of a freshly appended label. -/
theorem indexOf?_append_self (l : List String) (a : String)
    (h : l.indexOf? a = none) : (l ++ [a]).indexOf? a = some l.length := by
  induction l with
  | nil => simp [List.indexOf?_cons]
  | cons b bs ih =>
      rw [List.indexOf?_cons] at h
      by_cases hb : (b == a) = true
      · rw [if_pos hb] at h; cases h
      · rw [if_neg hb] at h
        have hbs : bs.indexOf? a = none := by
          cases h' : bs.indexOf? a with
          | none => rfl
          | some j => rw [h'] at h; simp at h
        rw [List.cons_append, List.indexOf?_cons, if_neg hb, ih hbs]
        rfl

/-- Zipping a row list with a constant column built from it pairs each row
with the constant. -/
theorem zip_self_map (l : List (List Value)) (c : Value) :
    (l.zip (l.map fun _ => c)) = l.map fun r => (r, c) := by
  induction l with
  | nil => rfl
  | cons r rs ih => simp only [List.map_cons, List.zip_cons_cons, ih]

/-- Reading back an overwritten cell. -/
theorem getD_set_self (r : List Value) (i : Nat) (c d : Value) (h : i < r.length) :
    (r.set i c).getD i d = c := by
  simp [List.getD_eq_getElem?_getD, List.getElem?_set_eq_of_lt c h]

/-- Reading back an appended cell. -/
theorem getD_concat_self (r : List Value) (c d : Value) :
    (r ++ [c]).getD r.length d = c := by
  simp [List.getD_eq_getElem?_getD, List.getElem?_concat_length]

/-- C5: stamping assigns the one formatted run timestamp to the
`created_at` field of every record — the column reads back as the same
value replicated once per record — and with calendar-sized fields that
value has the `YYYY-MM-DD HH:MM:SS` shape. -/
theorem c5_add_created_at_uniform (now : DateTime) (df : DataFrame)
    (hrect : ∀ r ∈ df.rows, r.length = df.columns.length)
    (hy : now.year ≤ 9999) (hm : now.month ≤ 99) (hd : now.day ≤ 99)
    (hh : now.hour ≤ 99) (hmi : now.minute ≤ 99) (hs : now.second ≤ 99) :
    (add_created_at now df).col "created_at" =
      List.replicate df.rows.length (Value.str now.strftimeISO) ∧
    isTimestampShaped now.strftimeISO = true := by
  refine ⟨?_, strftimeISO_shaped now hy hm hd hh hmi hs⟩
  unfold add_created_at DataFrame.setCol
  cases hidx : df.columns.indexOf? "created_at" with
  | some i =>
      have hi : i < df.columns.length := indexOf?_lt_length hidx
      simp only [zip_self_map, List.map_map, DataFrame.col, hidx]
      rw [List.eq_replicate_iff]
      constructor
      · simp
      · intro b hb
        rw [List.mem_map] at hb
        obtain ⟨r, hr, rfl⟩ := hb
        simp only [Function.comp_apply]
        exact getD_set_self r i _ _ (by rw [hrect r hr]; exact hi)
  | none =>
      simp only [zip_self_map, List.map_map, DataFrame.col, hidx,
        indexOf?_append_self df.columns "created_at" hidx]
      rw [List.eq_replicate_iff]
      constructor
      · simp
      · intro b hb
        rw [List.mem_map] at hb
        obtain ⟨r, hr, rfl⟩ := hb
        simp only [Function.comp_apply]
        rw [← hrect r hr]
        exact getD_concat_self r _ _

/-- C5 witness: the sample run time stamped onto scenario A's batch. -/
theorem c5_add_created_at_uniform_witness :
    (add_created_at sampleNow scenarioA).col "created_at" =
      List.replicate 1 (Value.str "2024-01-02 03:04:05") ∧
    isTimestampShaped "2024-01-02 03:04:05" = true :=
  c5_add_created_at_uniform sampleNow scenarioA (by decide) (by decide) (by decide)
    (by decide) (by decide) (by decide) (by decide)

end ETL
